import Mathlib

/-!
Shallow embedding of the rule-based batik classification engine
(`app.py`: `load_rules`, `match_conditions`, `backward_chain`,
`seed_default_rules`) and proofs about its behaviour.

Python values that can occur as facts or as expected condition values are
modelled by `PyVal`. Fact sets and condition maps are association lists
(Python dicts preserve insertion order; lookups take the first binding).
Python `float(...)` on a string is modelled by `pyFloat?`, a parser for
plain decimal numerals over `ℚ` (optional sign, digits, optional fractional
part); on every numeral appearing in this development the IEEE double
produced by Python is exact, so rational comparison agrees with the float
comparison performed by the source.
-/

namespace Batik

/-- Python values relevant to the engine: booleans, integers, strings and
`None`. JSON arrays/objects occurring as an expected condition value behave
in `match_conditions` exactly like the other non-bool non-string values
(the loop body falls through and continues), so they are covered by the
`int`/`none` constructors' branch. -/
inductive PyVal where
  | bool (b : Bool)
  | int (n : Int)
  | str (s : String)
  | none
deriving DecidableEq, Repr

/-- Python `str(v)`: `str(True) = "True"`, `str(False) = "False"`, integers
print in decimal, `str(None) = "None"`. -/
def pyStr : PyVal → String
  | .bool true => "True"
  | .bool false => "False"
  | .int n => toString n
  | .str s => s
  | .none => "None"

/-- Python `v == b` for a boolean `b`: a bool equals itself, and Python
booleans also equal the integers 0/1 (`True == 1`); strings and `None`
never equal a bool. -/
def pyEqBool (v : PyVal) (b : Bool) : Bool :=
  match v with
  | .bool b2 => b2 == b
  | .int n => n == (if b then 1 else 0)
  | _ => false

/-- Digit string to natural number value (most significant first). -/
def digitsVal (cs : List Char) : ℕ :=
  cs.foldl (fun a c => 10 * a + (c.toNat - 48)) 0

/-- Python `float(s)` on a plain decimal numeral: optional sign, then
digits with an optional fractional part, at least one digit overall.
Returns `none` when `float` would raise `ValueError`. (Exponents,
`inf`/`nan`, underscores and surrounding whitespace do not occur in this
development and are modelled as failures.) -/
def pyFloat? (s : String) : Option ℚ :=
  let cs := s.toList
  let (neg, body) :=
    match cs with
    | '-' :: rest => (true, rest)
    | '+' :: rest => (false, rest)
    | _ => (false, cs)
  let ip := body.takeWhile Char.isDigit
  let rest := body.dropWhile Char.isDigit
  let mag? : Option ℚ :=
    match rest with
    | [] => if ip.isEmpty then Option.none else some ((digitsVal ip : ℕ) : ℚ)
    | '.' :: fp =>
      if fp.all Char.isDigit && !(ip.isEmpty && fp.isEmpty) then
        some (((digitsVal ip : ℕ) : ℚ) + ((digitsVal fp : ℕ) : ℚ) / (10 : ℚ) ^ fp.length)
      else Option.none
    | _ => Option.none
  mag?.map (fun q => if neg then -q else q)

/-- Character-list prefix test; `strStartsWith s p` is Python
`s.startswith(p)`. -/
def charsPrefix : List Char → List Char → Bool
  | [], _ => true
  | _ :: _, [] => false
  | p :: ps, c :: cs => p == c && charsPrefix ps cs

/-- Python `s.startswith(p)`. -/
def strStartsWith (s p : String) : Bool :=
  charsPrefix p.toList s.toList

/-- One iteration of the loop body of `match_conditions` (app.py lines
102-130) for the entry `k ↦ expected`: wildcard `"any"` always passes;
a boolean expected value requires a present fact equal to it
(`facts.get(k) is None or facts.get(k) != expected`); a `"gte:"`/`"lte:"`
string coerces `float(str(facts.get(k, 0)))` — note the default `0` for a
missing key — and the threshold text after the colon, any coercion failure
failing the entry; any other string is compared against `str(facts.get(k))`;
every other expected value falls through and passes. -/
def entrySat (facts : List (String × PyVal)) (k : String) (expected : PyVal) : Bool :=
  if expected = PyVal.str "any" then true
  else match expected with
  | .bool b => pyEqBool ((facts.lookup k).getD PyVal.none) b
  | .str e =>
    if strStartsWith e "gte:" then
      match pyFloat? (pyStr ((facts.lookup k).getD (PyVal.int 0))), pyFloat? (e.drop 4) with
      | some v, some t => decide (t ≤ v)
      | _, _ => false
    else if strStartsWith e "lte:" then
      match pyFloat? (pyStr ((facts.lookup k).getD (PyVal.int 0))), pyFloat? (e.drop 4) with
      | some v, some t => decide (v ≤ t)
      | _, _ => false
    else pyStr ((facts.lookup k).getD PyVal.none) == e
  | _ => true

/-- `match_conditions(conditions, facts)` (app.py lines 95-131): the early
`return False` loop is the conjunction of `entrySat` over all entries. -/
def match_conditions (conditions facts : List (String × PyVal)) : Bool :=
  conditions.all fun kv => entrySat facts kv.1 kv.2

/-- Result of `json.loads` on a stored `conditions` column: `malformed`
when parsing raises (caught in `load_rules`), `obj m` when it yields a JSON
object, `nonObj` when it yields any other JSON value (array, string,
number, boolean, null — all of which later make `conditions.items()` raise
`AttributeError`, uniformly, so the payload is irrelevant). -/
inductive CondsField where
  | malformed
  | obj (m : List (String × PyVal))
  | nonObj
deriving DecidableEq, Repr

/-- A persisted `Rule` row restricted to the fields the engine reads. The
`explanation` column's JSON decoding (app.py lines 86-89) always produces
some value without aborting and no property here depends on its failure
modes, so the row carries the decoded explanation list directly. -/
structure RuleRow where
  id : ℕ
  rule_type : String
  priority : Int
  conditions : CondsField
  conclusion : String
  explanation : List String
deriving DecidableEq, Repr

/-- The `conditions` value a loaded rule carries: either a dict (possibly
empty) or a non-dict JSON value on which `match_conditions` would raise. -/
inductive Conds where
  | dict (m : List (String × PyVal))
  | nonDict
deriving DecidableEq, Repr

/-- A rule as produced by `load_rules` (app.py lines 90-91). -/
structure LoadedRule where
  id : ℕ
  priority : Int
  conditions : Conds
  conclusion : String
  explanation : List String
deriving DecidableEq, Repr

/-- The `try: cond = json.loads(...) except: cond = {}` step of
`load_rules` (app.py lines 82-85): a malformed column degrades to the
empty dict; a parsed non-object is kept as-is. -/
def decodeConds : CondsField → Conds
  | .malformed => .dict []
  | .obj m => .dict m
  | .nonObj => .nonDict

/-- The per-row body of `load_rules` (app.py lines 81-91). -/
def loadRule (r : RuleRow) : LoadedRule :=
  ⟨r.id, r.priority, decodeConds r.conditions, r.conclusion, r.explanation⟩

/-- Ordering used by the `ORDER BY priority ASC` clause of `load_rules`. -/
def byPriority (a b : RuleRow) : Prop :=
  a.priority ≤ b.priority

instance : DecidableRel byPriority :=
  fun a b => inferInstanceAs (Decidable (a.priority ≤ b.priority))

instance : IsTotal RuleRow byPriority :=
  ⟨fun a b => Int.le_total a.priority b.priority⟩

instance : IsTrans RuleRow byPriority :=
  ⟨fun _ _ _ h h2 => Int.le_trans h h2⟩

/-- `load_rules(rule_type)` (app.py lines 78-92): the query filters rows by
`rule_type` and sorts by `priority` ascending (a stable sort models the
`ORDER BY` clause), then each row is decoded. -/
def load_rules (rows : List RuleRow) (rule_type : String) : List LoadedRule :=
  (((rows.filter fun r => r.rule_type == rule_type).insertionSort byPriority).map loadRule)

/-- Evaluating one rule inside the loop of `backward_chain` (app.py line
149): `match_conditions(cond, enriched_facts)` returns a boolean for a dict
`cond`, and raises `AttributeError` at `conditions.items()` when `cond` is
a non-dict JSON value. -/
def evalRule (r : LoadedRule) (facts : List (String × PyVal)) : Except String Bool :=
  match r.conditions with
  | .nonDict => .error "AttributeError"
  | .dict m => .ok (match_conditions m facts)

/-- Python `enriched_facts = dict(facts); enriched_facts["defect_count"] = defect_count`
(app.py lines 147-148): a fresh copy with the key bound, replacing an
existing binding in place or appending a new one. -/
def setFact : List (String × PyVal) → String → PyVal → List (String × PyVal)
  | [], k, v => [(k, v)]
  | (k', v') :: rest, k, v =>
    if k' = k then (k, v) :: rest else (k', v') :: setFact rest k v

/-- The scanning loop of `backward_chain` (app.py lines 144-151): first
matching rule wins, a raised exception propagates, exhaustion yields the
`Undetermined` sentinel. The source rebuilds `enriched_facts` on every
iteration from the unmodified `facts`, producing the same value each time,
so it is passed in once here. -/
def chainLoop (rules : List LoadedRule) (ef : List (String × PyVal)) :
    Except String (String × List String) :=
  match rules with
  | [] => .ok ("Undetermined", ["No rule matched the given facts."])
  | r :: rest =>
    match evalRule r ef with
    | .error e => .error e
    | .ok true => .ok (r.conclusion, r.explanation)
    | .ok false => chainLoop rest ef

/-- `backward_chain(rule_type, facts, defect_count)` (app.py lines 137-151),
parameterised by the stored rows the `Rule` table holds. -/
def backward_chain (rows : List RuleRow) (rule_type : String)
    (facts : List (String × PyVal)) (defect_count : Int) :
    Except String (String × List String) :=
  chainLoop (load_rules rows rule_type)
    (setFact facts "defect_count" (PyVal.int defect_count))

/-- The rows seeded by `seed_default_rules` (app.py lines 157-250), with
ids in insertion order; `json.dumps` then `json.loads` round-trips each
conditions dict, so the stored columns parse back to the literal dicts. -/
def seed_default_rules : List RuleRow :=
  [⟨1, "technique", 10,
    .obj [("strokes_irregular", .bool true), ("wax_visible", .bool true),
          ("pattern_repeated", .bool false)],
    "Batik Tulis",
    ["Irregular hand-drawn strokes detected.",
     "Wax traces visible suggesting manual canting."]⟩,
   ⟨2, "technique", 20,
    .obj [("pattern_repeated", .bool true), ("wax_visible", .bool true),
          ("strokes_irregular", .bool false)],
    "Batik Cap",
    ["Highly repetitive pattern and uniform wax marks indicate stamping (cap)."]⟩,
   ⟨3, "technique", 30,
    .obj [("wax_visible", .bool false), ("machine_like", .bool true),
          ("pattern_repeated", .bool true)],
    "Batik Print",
    ["No wax traces and machine-like uniformity indicate printed batik."]⟩,
   ⟨4, "quality", 10,
    .obj [("color_sharp", .bool true), ("color_faded", .bool false),
          ("kain_halus", .bool true), ("defect_count", .str "lte:1")],
    "Premium",
    ["Sharp color, smooth fabric, and minimal defects (≤1)."]⟩,
   ⟨5, "quality", 20,
    .obj [("color_faded", .bool true)],
    "Reject",
    ["Color appears faded which significantly lowers quality."]⟩,
   ⟨6, "quality", 25,
    .obj [("defect_count", .str "gte:3")],
    "Reject",
    ["Multiple visible defects (≥3) make the product unacceptable."]⟩,
   ⟨7, "quality", 100,
    .obj [("any", .str "any")],
    "Standard",
    ["Does not meet Premium criteria and not severe enough for Reject; hence Standard."]⟩]

/-! Helper lemmas about the embedding. -/

theorem lookup_setFact (f : List (String × PyVal)) (k k' : String) (v : PyVal) :
    (setFact f k v).lookup k' = if k' = k then some v else f.lookup k' := by
  induction f with
  | nil =>
    by_cases h : k' = k
    · simp [setFact, List.lookup, h]
    · have hb : (k' == k) = false := beq_eq_false_iff_ne.mpr h
      simp [setFact, List.lookup, hb, h]
  | cons a t ih =>
    obtain ⟨ka, va⟩ := a
    by_cases h1 : ka = k
    · subst h1
      simp only [setFact, if_pos rfl]
      by_cases h2 : k' = ka
      · simp [List.lookup, h2]
      · have hb : (k' == ka) = false := beq_eq_false_iff_ne.mpr h2
        simp [List.lookup, hb, h2]
    · simp only [setFact, if_neg h1]
      by_cases h2 : k' = ka
      · have hbt : (k' == ka) = true := beq_iff_eq.mpr h2
        have hne : ¬k' = k := by rw [h2]; exact h1
        simp [List.lookup, hbt, if_neg hne]
      · have hbf : (k' == ka) = false := beq_eq_false_iff_ne.mpr h2
        simp [List.lookup, hbf, ih]

theorem match_conditions_false_of_mem {conds facts : List (String × PyVal)}
    {k : String} {v : PyVal} (hm : (k, v) ∈ conds)
    (he : entrySat facts k v = false) :
    match_conditions conds facts = false := by
  cases hb : match_conditions conds facts with
  | false => rfl
  | true =>
    rw [match_conditions] at hb
    have := List.all_eq_true.mp hb (k, v) hm
    rw [he] at this
    exact absurd this (by simp)

theorem chainLoop_append_first {pre : List LoadedRule} {r : LoadedRule}
    {post : List LoadedRule} {ef : List (String × PyVal)}
    (hpre : ∀ r' ∈ pre, evalRule r' ef = .ok false)
    (hr : evalRule r ef = .ok true) :
    chainLoop (pre ++ r :: post) ef = .ok (r.conclusion, r.explanation) := by
  induction pre with
  | nil => simp [chainLoop, hr]
  | cons a t ih =>
    have ha := hpre a (by simp)
    rw [List.cons_append, chainLoop, ha]
    exact ih fun r' h => hpre r' (by simp [h])

theorem chainLoop_all_false {rules : List LoadedRule} {ef : List (String × PyVal)}
    (h : ∀ r ∈ rules, evalRule r ef = .ok false) :
    chainLoop rules ef = .ok ("Undetermined", ["No rule matched the given facts."]) := by
  induction rules with
  | nil => rfl
  | cons a t ih =>
    have ha := h a (by simp)
    rw [chainLoop, ha]
    exact ih fun r hr => h r (by simp [hr])

theorem load_rules_sorted (rows : List RuleRow) (t : String) :
    (load_rules rows t).Pairwise (fun a b => a.priority ≤ b.priority) := by
  unfold load_rules
  refine List.Pairwise.map _ ?_ (List.sorted_insertionSort byPriority _)
  intro a b h
  exact h

theorem entrySat_congr {f f' : List (String × PyVal)}
    (h : ∀ k, f.lookup k = f'.lookup k) (k : String) (v : PyVal) :
    entrySat f k v = entrySat f' k v := by
  simp only [entrySat, h]

theorem match_conditions_congr {f f' : List (String × PyVal)}
    (h : ∀ k, f.lookup k = f'.lookup k) (conds : List (String × PyVal)) :
    match_conditions conds f = match_conditions conds f' := by
  unfold match_conditions
  induction conds with
  | nil => rfl
  | cons a t ih => simp [List.all_cons, ih, entrySat_congr h a.1 a.2]

theorem chainLoop_congr {ef ef' : List (String × PyVal)}
    (h : ∀ k, ef.lookup k = ef'.lookup k) (rules : List LoadedRule) :
    chainLoop rules ef = chainLoop rules ef' := by
  induction rules with
  | nil => rfl
  | cons a t ih =>
    have he : evalRule a ef = evalRule a ef' := by
      unfold evalRule
      cases a.conditions with
      | nonDict => rfl
      | dict m => simp [match_conditions_congr h]
    rw [chainLoop, chainLoop, he, ih]

/-! Claim theorems. -/

/-- C1: for every category and every fact set, the rules loaded for the
category are in ascending priority order, and `backward_chain` returns the
conclusion and explanation of the first rule in that order whose
conditions all match (all earlier rules evaluating to a non-match); no
later rule is returned once that one matches. -/
theorem backward_chain_first_match (rows : List RuleRow) (t : String)
    (facts : List (String × PyVal)) (dc : Int) :
    (load_rules rows t).Pairwise (fun a b => a.priority ≤ b.priority) ∧
    (∀ pre r post, load_rules rows t = pre ++ r :: post →
      (∀ r' ∈ pre,
        evalRule r' (setFact facts "defect_count" (PyVal.int dc)) = .ok false) →
      evalRule r (setFact facts "defect_count" (PyVal.int dc)) = .ok true →
      backward_chain rows t facts dc = .ok (r.conclusion, r.explanation)) := by
  refine ⟨load_rules_sorted rows t, ?_⟩
  intro pre r post heq hpre hr
  rw [backward_chain, heq]
  exact chainLoop_append_first hpre hr

/-- C1 witness: on the seeded quality rules with only `color_faded = True`,
the priority-20 rule is the first match and its conclusion is returned. -/
theorem backward_chain_first_match_witness :
    backward_chain seed_default_rules "quality"
      [("color_faded", PyVal.bool true)] 0 =
      .ok ("Reject", ["Color appears faded which significantly lowers quality."]) :=
  (backward_chain_first_match seed_default_rules "quality"
      [("color_faded", PyVal.bool true)] 0).2
    [loadRule ⟨4, "quality", 10,
      .obj [("color_sharp", .bool true), ("color_faded", .bool false),
            ("kain_halus", .bool true), ("defect_count", .str "lte:1")],
      "Premium", ["Sharp color, smooth fabric, and minimal defects (≤1)."]⟩]
    (loadRule ⟨5, "quality", 20, .obj [("color_faded", .bool true)],
      "Reject", ["Color appears faded which significantly lowers quality."]⟩)
    [loadRule ⟨6, "quality", 25, .obj [("defect_count", .str "gte:3")],
      "Reject", ["Multiple visible defects (≥3) make the product unacceptable."]⟩,
     loadRule ⟨7, "quality", 100, .obj [("any", .str "any")],
      "Standard",
      ["Does not meet Premium criteria and not severe enough for Reject; hence Standard."]⟩]
    (by decide)
    (by intro r' h; rw [List.mem_singleton] at h; subst h; rfl)
    rfl

/-- C2 counterexample: a rule whose stored conditions JSON is malformed is
decoded to the empty dict, which matches the empty fact set, and its
conclusion is returned — refuting the claim that such a rule never
matches and can never be the returned conclusion. -/
theorem malformed_rule_returned :
    backward_chain [⟨1, "quality", 10, CondsField.malformed, "Bad", ["e"]⟩]
      "quality" [] 0 = .ok ("Bad", ["e"]) := rfl

/-- C2 amended: a rule whose stored conditions field is malformed degrades
to the empty conditions dict, so it matches every fact set without
aborting classification; when it is the first rule reached, it is the
returned conclusion. -/
theorem malformed_rule_matches_all (r : RuleRow)
    (hr : r.conditions = CondsField.malformed) :
    ∀ facts, evalRule (loadRule r) facts = .ok true := by
  intro facts
  simp [loadRule, evalRule, hr, decodeConds, match_conditions]

/-- C2 amended witness: a concrete malformed rule evaluates to a match. -/
theorem malformed_rule_matches_all_witness :
    evalRule (loadRule ⟨1, "quality", 10, CondsField.malformed, "Bad", ["e"]⟩)
      [] = .ok true :=
  malformed_rule_matches_all _ rfl []

/-- C3 counterexample: an `lte:1` condition on a key absent from the fact
set is satisfied — `facts.get(k, 0)` defaults the missing fact to `0` —
so the rule matches, refuting the claim that a missing fact for a numeric
specifier is always a match failure. -/
theorem missing_fact_lte_matches :
    match_conditions [("defect_count", PyVal.str "lte:1")] [] = true := by decide

/-- C3 amended: when key `k` is absent from the fact set, a numeric
specifier entry is evaluated against the default value `0`: a `gte:T`
entry is satisfied iff `T ≤ 0` and an `lte:T` entry iff `0 ≤ T`; a missing
fact is a match failure only when `0` fails the bound. -/
theorem missing_fact_defaults_zero (facts : List (String × PyVal))
    (k e : String) (T : ℚ)
    (habs : facts.lookup k = Option.none)
    (ht : pyFloat? (e.drop 4) = some T) :
    (strStartsWith e "gte:" = true →
      (match_conditions [(k, PyVal.str e)] facts = true ↔ T ≤ 0)) ∧
    (strStartsWith e "gte:" = false → strStartsWith e "lte:" = true →
      (match_conditions [(k, PyVal.str e)] facts = true ↔ 0 ≤ T)) := by
  have h0 : pyFloat? (pyStr (PyVal.int 0)) = some 0 := by decide
  constructor
  · intro hg
    have hne : e ≠ "any" := by rintro rfl; exact absurd hg (by decide)
    simp [match_conditions, entrySat, hne, hg, ht, habs, h0, decide_eq_true_eq]
  · intro hng hl
    have hne : e ≠ "any" := by rintro rfl; exact absurd hl (by decide)
    simp [match_conditions, entrySat, hne, hng, hl, ht, habs, h0, decide_eq_true_eq]

/-- C3 amended witness: `lte:2` on an absent `defect_count` matches. -/
theorem missing_fact_defaults_zero_witness :
    match_conditions [("defect_count", PyVal.str "lte:2")] [] = true :=
  ((missing_fact_defaults_zero [] "defect_count" "lte:2" 2 rfl (by decide)).2
    (by decide) (by decide)).mpr (by norm_num)

/-- C4 counterexample: with `wax_visible = False` and `machine_like = True`
but `pattern_repeated` absent, no seeded technique rule matches — the
priority-30 rule also requires `pattern_repeated = True` — so the engine
returns `Undetermined`, not `"Batik Print"`. -/
theorem no_wax_machine_like_undetermined :
    backward_chain seed_default_rules "technique"
      [("wax_visible", PyVal.bool false), ("machine_like", PyVal.bool true)] 0 =
      .ok ("Undetermined", ["No rule matched the given facts."]) := rfl

/-- C4 amended: with the seeded technique rules, every fact set in which
`wax_visible` is `False`, `machine_like` is `True` and `pattern_repeated`
is `True` classifies as `"Batik Print"` (the earlier technique rules
require `wax_visible = True` and cannot match). -/
theorem print_rule_first_match (facts : List (String × PyVal)) (dc : Int)
    (hw : facts.lookup "wax_visible" = some (PyVal.bool false))
    (hm : facts.lookup "machine_like" = some (PyVal.bool true))
    (hp : facts.lookup "pattern_repeated" = some (PyVal.bool true)) :
    backward_chain seed_default_rules "technique" facts dc =
      .ok ("Batik Print",
        ["No wax traces and machine-like uniformity indicate printed batik."]) := by
  have hload : load_rules seed_default_rules "technique" =
      (seed_default_rules.take 3).map loadRule := by decide
  set ef := setFact facts "defect_count" (PyVal.int dc) with hef
  have hw' : ef.lookup "wax_visible" = some (PyVal.bool false) := by
    rw [hef, lookup_setFact, if_neg (by decide), hw]
  have hm' : ef.lookup "machine_like" = some (PyVal.bool true) := by
    rw [hef, lookup_setFact, if_neg (by decide), hm]
  have hp' : ef.lookup "pattern_repeated" = some (PyVal.bool true) := by
    rw [hef, lookup_setFact, if_neg (by decide), hp]
  have e1 : entrySat ef "wax_visible" (PyVal.bool true) = false := by
    simp [entrySat, hw', pyEqBool]
  have h1 : match_conditions
      [("strokes_irregular", PyVal.bool true), ("wax_visible", PyVal.bool true),
       ("pattern_repeated", PyVal.bool false)] ef = false :=
    match_conditions_false_of_mem (by simp) e1
  have h2 : match_conditions
      [("pattern_repeated", PyVal.bool true), ("wax_visible", PyVal.bool true),
       ("strokes_irregular", PyVal.bool false)] ef = false :=
    match_conditions_false_of_mem (by simp) e1
  have h3 : match_conditions
      [("wax_visible", PyVal.bool false), ("machine_like", PyVal.bool true),
       ("pattern_repeated", PyVal.bool true)] ef = true := by
    simp [match_conditions, entrySat, hw', hm', hp', pyEqBool]
  rw [backward_chain, ← hef, hload]
  simp [chainLoop, evalRule, loadRule, decodeConds, seed_default_rules, h1, h2, h3]

/-- C4 amended witness: concrete facts with the three bindings classify as
`"Batik Print"`. -/
theorem print_rule_first_match_witness :
    backward_chain seed_default_rules "technique"
      [("wax_visible", PyVal.bool false), ("machine_like", PyVal.bool true),
       ("pattern_repeated", PyVal.bool true)] 7 =
      .ok ("Batik Print",
        ["No wax traces and machine-like uniformity indicate printed batik."]) :=
  print_rule_first_match _ 7 rfl rfl rfl

/-- C5: for every category and fact set, when no loaded rule matches — in
particular when the rule set is empty — `backward_chain` returns the
sentinel `Undetermined` with exactly one explanation entry. -/
theorem undetermined_when_no_match (rows : List RuleRow) (t : String)
    (facts : List (String × PyVal)) (dc : Int)
    (h : ∀ r ∈ load_rules rows t,
      evalRule r (setFact facts "defect_count" (PyVal.int dc)) = .ok false) :
    ∃ expl, backward_chain rows t facts dc = .ok ("Undetermined", expl) ∧
      expl.length = 1 :=
  ⟨["No rule matched the given facts."],
    by rw [backward_chain]; exact chainLoop_all_false h, rfl⟩

/-- C5 witness: an empty rule store yields `Undetermined` with one
explanation entry. -/
theorem undetermined_when_no_match_witness :
    ∃ expl, backward_chain [] "technique" [] 0 = .ok ("Undetermined", expl) ∧
      expl.length = 1 :=
  undetermined_when_no_match [] "technique" [] 0 (by simp [load_rules])

/-- C6: a condition entry with a boolean expected value on a key absent
from the fact set makes the rule fail to match, whichever boolean is
expected — an absent fact is never treated as false-by-default. -/
theorem bool_condition_missing_fact (conds facts : List (String × PyVal))
    (k : String) (b : Bool) (hmem : (k, PyVal.bool b) ∈ conds)
    (habs : facts.lookup k = Option.none) :
    match_conditions conds facts = false := by
  refine match_conditions_false_of_mem hmem ?_
  simp [entrySat, habs, pyEqBool]

/-- C6 witness: expecting `wax_visible = False` against an empty fact set
fails to match. -/
theorem bool_condition_missing_fact_witness :
    match_conditions [("wax_visible", PyVal.bool false)] [] = false :=
  bool_condition_missing_fact [("wax_visible", PyVal.bool false)] []
    "wax_visible" false (by simp) rfl

/-- C7: a `gte:T` condition entry is satisfied iff the coerced fact value
`v` satisfies `T ≤ v`, and an `lte:T` entry iff `v ≤ T`; in particular
`gte:3` on `defect_count` matches 3 and 4 and fails for 2, and `lte:1`
matches 0 and 1 and fails for 2. -/
theorem numeric_threshold_semantics :
    (∀ (facts : List (String × PyVal)) (k e : String) (T v : ℚ),
      strStartsWith e "gte:" = true →
      pyFloat? (e.drop 4) = some T →
      pyFloat? (pyStr ((facts.lookup k).getD (PyVal.int 0))) = some v →
      (match_conditions [(k, PyVal.str e)] facts = true ↔ T ≤ v)) ∧
    (∀ (facts : List (String × PyVal)) (k e : String) (T v : ℚ),
      strStartsWith e "gte:" = false →
      strStartsWith e "lte:" = true →
      pyFloat? (e.drop 4) = some T →
      pyFloat? (pyStr ((facts.lookup k).getD (PyVal.int 0))) = some v →
      (match_conditions [(k, PyVal.str e)] facts = true ↔ v ≤ T)) ∧
    match_conditions [("defect_count", PyVal.str "gte:3")]
      [("defect_count", PyVal.int 3)] = true ∧
    match_conditions [("defect_count", PyVal.str "gte:3")]
      [("defect_count", PyVal.int 4)] = true ∧
    match_conditions [("defect_count", PyVal.str "gte:3")]
      [("defect_count", PyVal.int 2)] = false ∧
    match_conditions [("defect_count", PyVal.str "lte:1")]
      [("defect_count", PyVal.int 0)] = true ∧
    match_conditions [("defect_count", PyVal.str "lte:1")]
      [("defect_count", PyVal.int 1)] = true ∧
    match_conditions [("defect_count", PyVal.str "lte:1")]
      [("defect_count", PyVal.int 2)] = false := by
  refine ⟨?_, ?_, by decide, by decide, by decide, by decide, by decide, by decide⟩
  · intro facts k e T v hg ht hv
    have hne : e ≠ "any" := by rintro rfl; exact absurd hg (by decide)
    simp [match_conditions, entrySat, hne, hg, ht, hv, decide_eq_true_eq]
  · intro facts k e T v hng hl ht hv
    have hne : e ≠ "any" := by rintro rfl; exact absurd hl (by decide)
    simp [match_conditions, entrySat, hne, hng, hl, ht, hv, decide_eq_true_eq]

/-- C7 witness: `gte:2` against a fact value 5 matches, by the general
threshold semantics. -/
theorem numeric_threshold_semantics_witness :
    match_conditions [("defect_count", PyVal.str "gte:2")]
      [("defect_count", PyVal.int 5)] = true :=
  (numeric_threshold_semantics.1 [("defect_count", PyVal.int 5)]
    "defect_count" "gte:2" 2 5 (by decide) (by decide) (by decide)).mpr
    (by norm_num)

/-- C8: a rule whose conditions map is empty matches every fact set. -/
theorem empty_conditions_match (facts : List (String × PyVal)) :
    match_conditions [] facts = true := rfl

/-- C9: a stored rule whose conditions column holds valid JSON that is not
an object parses successfully in `load_rules`, and `match_conditions` then
raises `AttributeError` at `conditions.items()`; `backward_chain`
propagates the exception instead of returning a result pair. -/
theorem nonobject_conditions_raise :
    backward_chain [⟨1, "quality", 10, CondsField.nonObj, "X", []⟩]
      "quality" [] 0 = .error "AttributeError" := rfl

/-- C10: the per-rule fact set is a fresh copy of `facts` with
`"defect_count"` bound to the `defect_count` argument: the enriched copy
maps `"defect_count"` to that argument (overriding any entry of `facts`)
and agrees with `facts` on every other key, and the result of
`backward_chain` is unchanged by any modification of the caller's
`"defect_count"` entry; the caller's mapping itself is never written (the
source copies it with `dict(facts)` before the update, which the pure
embedding reflects). -/
theorem defect_count_override (rows : List RuleRow) (t : String)
    (facts facts' : List (String × PyVal)) (dc : Int) :
    (setFact facts "defect_count" (PyVal.int dc)).lookup "defect_count" =
      some (PyVal.int dc) ∧
    (∀ k, k ≠ "defect_count" →
      (setFact facts "defect_count" (PyVal.int dc)).lookup k = facts.lookup k) ∧
    ((∀ k, k ≠ "defect_count" → facts.lookup k = facts'.lookup k) →
      backward_chain rows t facts dc = backward_chain rows t facts' dc) := by
  refine ⟨?_, ?_, ?_⟩
  · rw [lookup_setFact, if_pos rfl]
  · intro k hk
    rw [lookup_setFact, if_neg hk]
  · intro h
    rw [backward_chain, backward_chain]
    apply chainLoop_congr
    intro k
    by_cases hk : k = "defect_count"
    · subst hk
      rw [lookup_setFact, lookup_setFact, if_pos rfl, if_pos rfl]
    · rw [lookup_setFact, lookup_setFact, if_neg hk, if_neg hk, h k hk]

/-- C10 witness: a stale `defect_count` entry in the caller's fact set is
overridden, so removing it does not change the classification. -/
theorem defect_count_override_witness :
    backward_chain seed_default_rules "quality"
      [("defect_count", PyVal.int 99)] 0 =
      backward_chain seed_default_rules "quality" [] 0 :=
  (defect_count_override seed_default_rules "quality"
      [("defect_count", PyVal.int 99)] [] 0).2.2 (by
    intro k hk
    have hb : (k == "defect_count") = false := beq_eq_false_iff_ne.mpr hk
    simp [List.lookup, hb])

end Batik
